import Mathlib

/-!
Verification of the Book Management System backend
(`src/services/BookService.ts`, `src/models/BookService.ts`,
`src/models/UserService.ts`, the Express route files `routes/bookRoutes`,
`routes/authRoutes` and the middleware `authMiddleware`).

The embedding is shallow: each TypeScript function that the claims touch is
translated into an executable Lean definition over explicit database states
(lists of rows).  SQL execution is modelled by list filtering/sorting/slicing
with PostgreSQL semantics for the operators the generated statements use
(`ILIKE` with `%`/`_` wildcards, `IN`, `=`, `ORDER BY created_at DESC`,
`LIMIT`/`OFFSET`, `COUNT(*) OVER ()`).  JavaScript truthiness tests
(`if (search)`, `if (year)`) are translated faithfully.
-/

namespace BookMgmt

/-- A bound SQL parameter (the elements of the JS `queryParams` array). -/
inductive SqlParam where
  | s (v : String)
  | i (v : Int)
  deriving DecidableEq, Repr

/-- A row of the `books` table.  `genre` and `published_year` are nullable
columns; `created_at` / `updated_at` are server-assigned timestamps. -/
structure Book where
  id : Int
  title : String
  author : String
  genre : Option String
  published_year : Option Int
  created_at : Int
  updated_at : Int
  deriving DecidableEq, Repr

/-- A query-string value that is either a scalar string or an array of
strings (Express produces an array when the key is repeated). -/
inductive StrOrArr where
  | str (s : String)
  | arr (l : List String)
  deriving DecidableEq, Repr

/-- The `IBookFilters` object of `src/models/Book.ts`: every field optional
(`none` models the JS `undefined`). -/
structure IBookFilters where
  search : Option String := none
  genre : Option StrOrArr := none
  author : Option StrOrArr := none
  year : Option Int := none
  limit : Option Nat := none
  offset : Option Nat := none
  deriving DecidableEq, Repr

/-- The `IPaginatedResult` record returned by `getAllBooks`. -/
structure IPaginatedResult where
  data : List Book
  total : Nat
  page : Nat
  totalPages : Nat
  hasNext : Bool
  hasPrev : Bool
  deriving DecidableEq, Repr

/-! ### SQL `LIKE` / `ILIKE` semantics

PostgreSQL `LIKE`: `%` matches any sequence, `_` matches one character, any
other pattern character matches itself (the code never sets an ESCAPE
clause and the default escape character does not occur in the claims'
inputs, so escaping is not modelled).  `ILIKE` lowercases both sides. -/

/-- `likeMatch p l`: does the `LIKE` pattern `p` match the whole string `l`
(both as character lists)? -/
def likeMatch : List Char → List Char → Bool
  | [], l => l.isEmpty
  | c :: p, l =>
    if c = '%' then
      (List.tails l).any (fun l2 => likeMatch p l2)
    else
      match l with
      | [] => false
      | d :: l2 => (c = '_' || c = d) && likeMatch p l2

/-- Lower-cased character list of a string (the `ILIKE` normalization). -/
def lowerStr (s : String) : List Char :=
  s.data.map Char.toLower

/-- `col ILIKE pat` for a non-NULL column value `col`. -/
def ilikePat (pat : String) (col : String) : Bool :=
  likeMatch (lowerStr pat) (lowerStr col)

inductive Cond where
  | searchCond (s : String)
  | genreIn (l : List String)
  | genreLike (s : String)
  | authorIn (l : List String)
  | authorLike (s : String)
  | yearEq (y : Int)
  deriving DecidableEq, Repr

/-- The `if (search)` block: the destructuring default `search = ''` makes
an absent field falsy, and an empty string is falsy. -/
def searchConds (os : Option String) : List Cond :=
  if os.getD "" ≠ "" then [Cond.searchCond (os.getD "")] else []

/-- The `if (genre)` block: any array (even empty) is truthy, but an empty
array falls through both the `Array.isArray(...) && length > 0` branch
and the `typeof ... === 'string'` branch, adding no condition; a scalar
adds a condition only when non-empty. -/
def genreConds (og : Option StrOrArr) : List Cond :=
  match og.getD (StrOrArr.str "") with
  | StrOrArr.arr l => if l.isEmpty then [] else [Cond.genreIn l]
  | StrOrArr.str s => if s ≠ "" then [Cond.genreLike s] else []

/-- The `if (author)` block, same shape as the genre block. -/
def authorConds (oa : Option StrOrArr) : List Cond :=
  match oa.getD (StrOrArr.str "") with
  | StrOrArr.arr l => if l.isEmpty then [] else [Cond.authorIn l]
  | StrOrArr.str s => if s ≠ "" then [Cond.authorLike s] else []

/-- The `if (year)` block: `undefined` and the number `0` are falsy. -/
def yearConds (oy : Option Int) : List Cond :=
  match oy with
  | some y => if y ≠ 0 then [Cond.yearEq y] else []
  | none => []

/-- Mirror of the condition-building `if` chain of `getAllBooks`, in
source order. -/
def buildConds (f : IBookFilters) : List Cond :=
  searchConds f.search ++ genreConds f.genre ++ authorConds f.author ++
    yearConds f.year

/-- PostgreSQL evaluation of one generated condition on one row.  The bound
parameter of a scalar condition is the string `'%' ++ text ++ '%'`; a NULL
column never satisfies `ILIKE`, `IN` or `=`. -/
def evalCond (b : Book) : Cond → Bool
  | Cond.searchCond s =>
      ilikePat ("%" ++ s ++ "%") b.title || ilikePat ("%" ++ s ++ "%") b.author
  | Cond.genreIn l =>
      match b.genre with
      | some g => l.contains g
      | none => false
  | Cond.genreLike s =>
      match b.genre with
      | some g => ilikePat ("%" ++ s ++ "%") g
      | none => false
  | Cond.authorIn l => l.contains b.author
  | Cond.authorLike s => ilikePat ("%" ++ s ++ "%") b.author
  | Cond.yearEq y =>
      match b.published_year with
      | some py => py = y
      | none => false

/-- The conjunction (`AND`) of all generated conditions. -/
def matchesFilter (f : IBookFilters) (b : Book) : Bool :=
  (buildConds f).all (evalCond b)

/-- `ORDER BY created_at DESC`: most recent first, ties broken by a fixed
stable order (consistent per query, as the database provides). -/
def createdDesc (a b : Book) : Prop :=
  b.created_at ≤ a.created_at

instance : DecidableRel createdDesc := fun a b =>
  inferInstanceAs (Decidable (b.created_at ≤ a.created_at))

instance : IsTotal Book createdDesc :=
  ⟨fun a b => le_total b.created_at a.created_at⟩

instance : IsTrans Book createdDesc :=
  ⟨fun _ _ _ h1 h2 => le_trans h2 h1⟩

/-- The database's sorted view of the `books` table. -/
def sortByCreated (db : List Book) : List Book :=
  List.insertionSort createdDesc db

/-- The full filtered result set of the statement, before `LIMIT`/`OFFSET`:
`SELECT * FROM books WHERE ... ORDER BY created_at DESC`. -/
def filteredBooks (db : List Book) (f : IBookFilters) : List Book :=
  (sortByCreated db).filter (matchesFilter f)

/-- `BookService.getAllBooks` of `src/services/BookService.ts` (the
implementation the routes import), PostgreSQL dialect: one combined
statement with `COUNT(*) OVER() as total_count` on each row, then
`LIMIT limit OFFSET offset`.  `total` is read from the first returned row
and is `0` when the page slice is empty; `limit`/`offset` default to
`10`/`0`; `page = Math.floor(offset/limit)+1`;
`totalPages = Math.ceil(total/limit)`. -/
def getAllBooks (db : List Book) (f : IBookFilters) : IPaginatedResult :=
  let lim := f.limit.getD 10
  let off := f.offset.getD 0
  let page := off / lim + 1
  let rowsAll := filteredBooks db f
  let slice := (rowsAll.drop off).take lim
  let total := if slice.isEmpty then 0 else rowsAll.length
  let totalPages := (total + lim - 1) / lim
  { data := slice
    total := total
    page := page
    totalPages := totalPages
    hasNext := page < totalPages
    hasPrev := page > 1 }

/-- The naive two-round-trip implementation the spec compares against
(`SELECT COUNT(*) ... WHERE ...` then the data query with the same WHERE
clause — the shape of `src/models/BookService.ts`): `total` is the count of
matching rows computed independently of `LIMIT`/`OFFSET`. -/
def getAllBooksNaive (db : List Book) (f : IBookFilters) : IPaginatedResult :=
  let lim := f.limit.getD 10
  let off := f.offset.getD 0
  let page := off / lim + 1
  let rowsAll := filteredBooks db f
  let slice := (rowsAll.drop off).take lim
  let total := rowsAll.length
  let totalPages := (total + lim - 1) / lim
  { data := slice
    total := total
    page := page
    totalPages := totalPages
    hasNext := page < totalPages
    hasPrev := page > 1 }

/-! ### The generated SQL text (placeholders and bound parameters)

`whereConditions` entries are SQL fragments containing `?` (MySQL) or `$n`
(PostgreSQL) placeholders; `queryParams` is the parallel parameter list.
Whitespace of the source's template literals is normalized to single
spaces, which does not affect placeholder or parameter counts. -/

/-- A row of the `users` table (`SELECT *` shape). -/
structure User where
  id : Int
  username : String
  email : String
  password_hash : String
  role : String
  created_at : Int
  updated_at : Int
  deriving DecidableEq, Repr

/-- `bcrypt.hash(password, 12)`, modelled as a deterministic injective
encoding; `bcrypt.compare(password, hash)` is then equality with
`hashPassword password`. -/
def hashPassword (p : String) : String :=
  "bcrypt12$" ++ p

/-- `jwt.sign({userId, username, email, role}, secret)`, modelled as an
encoding of the payload. -/
def generateToken (userId : Int) (username email role : String) : String :=
  "jwt." ++ toString userId ++ "." ++ username ++ "." ++ email ++ "." ++ role

/-- A JS user object as a keyed record (`SELECT *` row), so that the
rest-spread `const \x7b password_hash, ...userResponse \x7d = user` can be
modelled key-exactly. -/
def UserObj : Type :=
  List (String × SqlParam)

instance : DecidableEq UserObj :=
  inferInstanceAs (DecidableEq (List (String × SqlParam)))

instance : Repr UserObj :=
  inferInstanceAs (Repr (List (String × SqlParam)))

/-- The object a `users` row arrives as from the driver. -/
def User.toObj (u : User) : UserObj :=
  [("id", SqlParam.i u.id),
   ("username", SqlParam.s u.username),
   ("email", SqlParam.s u.email),
   ("password_hash", SqlParam.s u.password_hash),
   ("role", SqlParam.s u.role),
   ("created_at", SqlParam.i u.created_at),
   ("updated_at", SqlParam.i u.updated_at)]

/-- `UserService.formatUserResponse`: rest-spread copying every key except
`password_hash`. -/
def formatUserResponse (user : UserObj) : UserObj :=
  user.filter (fun kv => kv.1 ≠ "password_hash")

/-- `UserService.getUserByEmail`: first row of
`SELECT * FROM users WHERE email = $1`. -/
def getUserByEmail (db : List User) (email : String) : Option User :=
  db.find? (fun u => u.email = email)

/-- `UserService.getUserByUsername`. -/
def getUserByUsername (db : List User) (username : String) : Option User :=
  db.find? (fun u => u.username = username)

/-- `UserService.getUserById`. -/
def getUserById (db : List User) (id : Int) : Option User :=
  db.find? (fun u => u.id = id)

/-- The `IAuthResponse` record (`success`, `message`, optional `user` and
`token`). -/
structure IAuthResponse where
  success : Bool
  message : String
  user : Option UserObj := none
  token : Option String := none
  deriving DecidableEq, Repr

/-- One run of `UserService.registerUser`: the response, whether
`bcrypt.hash` was invoked during the run, and the resulting table. -/
structure RegisterRun where
  resp : IAuthResponse
  hashInvoked : Bool
  db : List User
  deriving DecidableEq, Repr

/-- `UserService.registerUser` (`src/models/UserService.ts` lines 12–72):
email-duplicate check, then username-duplicate check, then
`bcrypt.hash`, then `INSERT`.  `newId`/`now` stand for the
database-assigned id and timestamps. -/
def registerUser (db : List User) (username email password role : String)
    (newId now : Int) : RegisterRun :=
  match getUserByEmail db email with
  | some _ =>
      ⟨⟨false, "User with this email already exists", none, none⟩, false, db⟩
  | none =>
      match getUserByUsername db username with
      | some _ =>
          ⟨⟨false, "Username is already taken", none, none⟩, false, db⟩
      | none =>
          let h := hashPassword password
          ⟨⟨true, "User registered successfully", none, none⟩, true,
           db ++ [⟨newId, username, email, h, role, now, now⟩]⟩

/-- `UserService.loginUser` (`src/models/UserService.ts` lines 75–120):
lookup by email, `bcrypt.compare`, then token + formatted user on
success; both failure paths return the same response. -/
def loginUser (db : List User) (email password : String) : IAuthResponse :=
  match getUserByEmail db email with
  | none => ⟨false, "Invalid email or password", none, none⟩
  | some u =>
      if hashPassword password = u.password_hash then
        ⟨true, "Login successful",
         some (formatUserResponse u.toObj),
         some (generateToken u.id u.username u.email u.role)⟩
      else
        ⟨false, "Invalid email or password", none, none⟩

/-- `POST /api/auth/login` (`routes/authRoutes`): 200 on success,
otherwise 401 with the service's response body. -/
structure LoginHttp where
  status : Nat
  body : IAuthResponse
  deriving DecidableEq, Repr

def loginRoute (db : List User) (email password : String) : LoginHttp :=
  let r := loginUser db email password
  ⟨if r.success then 200 else 401, r⟩

/-- `UserService.getAllUsers`:
`SELECT * FROM users ORDER BY created_at DESC`, each row through
`formatUserResponse`. -/
def getAllUsers (db : List User) : List UserObj :=
  (List.insertionSort (fun a b : User => b.created_at ≤ a.created_at) db).map
    (fun u => formatUserResponse u.toObj)

/-- `UserService.deleteUser`: `DELETE FROM users WHERE id = $1
RETURNING id`; success iff a row was deleted. -/
def deleteUserService (db : List User) (id : Int) : Bool × List User :=
  (db.any (fun u => u.id = id), db.filter (fun u => u.id ≠ id))

/-- `UserService.updateUserRole`: `UPDATE users SET role = $1,
updated_at = CURRENT_TIMESTAMP WHERE id = $2 RETURNING id`. -/
def updateUserRoleService (db : List User) (id : Int) (role : String)
    (now : Int) : Bool × List User :=
  (db.any (fun u => u.id = id),
   db.map (fun u => if u.id = id then { u with role := role, updated_at := now } else u))

/-! ### Auth middleware (`middleware/authMiddleware`) and the admin
user-management routes (`routes/authRoutes`). -/

/-- A verified JWT payload (`IJWTPayload`). -/
structure IJWTPayload where
  userId : Int
  username : String
  email : String
  role : String
  deriving DecidableEq, Repr

/-- The token situation of a request: no bearer token in the
`Authorization` header, a token `verifyToken` rejects, or a token
verifying to a payload. -/
inductive TokenState where
  | missing
  | invalid
  | valid (p : IJWTPayload)
  deriving DecidableEq, Repr

/-- A JSON error/success response (`status`, `success`, `message`). -/
structure HttpResp where
  status : Nat
  success : Bool
  message : String
  deriving DecidableEq, Repr

/-- `authenticateToken`: 401 when no token, 403 when `verifyToken`
returns null, otherwise attaches the payload. -/
def authenticateToken (tok : TokenState) : Except HttpResp IJWTPayload :=
  match tok with
  | TokenState.missing => Except.error ⟨401, false, "Access token is required"⟩
  | TokenState.invalid => Except.error ⟨403, false, "Invalid or expired token"⟩
  | TokenState.valid p => Except.ok p

/-- `requireAdmin` running after `authenticateToken` (so `req.user` is
set): 403 unless the payload role is `admin`.  (Its unauthenticated 401
branch is unreachable in these chains.) -/
def requireAdmin (p : IJWTPayload) : Except HttpResp IJWTPayload :=
  if p.role ≠ "admin" then Except.error ⟨403, false, "Admin access required"⟩
  else Except.ok p

/-- Outcome of an admin user-management request: the response and the
resulting `users` table. -/
structure UserRouteRun where
  resp : HttpResp
  db : List User
  deriving DecidableEq, Repr

/-- `DELETE /api/auth/users/:id`: `requireDatabase`, `authenticateToken`,
`requireAdmin`, `validateUserId` (`isInt \x7bmin: 1\x7d`),
`handleValidationErrors`, then the self-deletion guard and the service
call. -/
def deleteUserRoute (db : List User) (tok : TokenState) (targetId : Int) :
    UserRouteRun :=
  match authenticateToken tok with
  | Except.error r => ⟨r, db⟩
  | Except.ok p =>
      match requireAdmin p with
      | Except.error r => ⟨r, db⟩
      | Except.ok p =>
          if targetId < 1 then ⟨⟨400, false, "Validation failed"⟩, db⟩
          else if p.userId = targetId then
            ⟨⟨400, false, "You cannot delete your own account"⟩, db⟩
          else
            let r := deleteUserService db targetId
            if r.1 then ⟨⟨200, true, "User deleted successfully"⟩, r.2⟩
            else ⟨⟨404, false, "User not found"⟩, r.2⟩

/-- `PUT /api/auth/users/:id/role`: same chain plus `validateRoleUpdate`
(`role` must be `admin` or `user`), then the self-role-change guard and
the service call. -/
def updateUserRoleRoute (db : List User) (tok : TokenState) (targetId : Int)
    (role : String) (now : Int) : UserRouteRun :=
  match authenticateToken tok with
  | Except.error r => ⟨r, db⟩
  | Except.ok p =>
      match requireAdmin p with
      | Except.error r => ⟨r, db⟩
      | Except.ok p =>
          if targetId < 1 || !(role = "admin" || role = "user") then
            ⟨⟨400, false, "Validation failed"⟩, db⟩
          else if p.userId = targetId then
            ⟨⟨400, false, "You cannot change your own role"⟩, db⟩
          else
            let r := updateUserRoleService db targetId role now
            if r.1 then ⟨⟨200, true, "User role updated successfully"⟩, r.2⟩
            else ⟨⟨404, false, "User not found"⟩, r.2⟩

/-- `GET /api/auth/me` for an authenticated request: load the user by the
payload's id and return it through `formatUserResponse`. -/
def meRoute (db : List User) (tok : TokenState) :
    HttpResp × Option UserObj :=
  match authenticateToken tok with
  | Except.error r => (r, none)
  | Except.ok p =>
      match getUserById db p.userId with
      | none => (⟨404, false, "User not found"⟩, none)
      | some u =>
          -- the success body is `{success: true, data: userResponse}` (no message)
          (⟨200, true, ""⟩, some (formatUserResponse u.toObj))

/-! ### Book mutation: `updateBook` / `deleteBook` and their routes
(`src/services/BookService.ts` lines 185–258, `routes/bookRoutes`). -/

/-- The `IBookUpdate` partial-fields object (after the route has deleted
the `undefined` keys). -/
structure IBookUpdate where
  title : Option String := none
  author : Option String := none
  published_year : Option Int := none
  genre : Option String := none
  deriving DecidableEq, Repr

/-- Apply the `SET` clauses of the generated `UPDATE` to one row
(`updated_at = CURRENT_TIMESTAMP` is always set). -/
def applyUpdate (u : IBookUpdate) (now : Int) (b : Book) : Book :=
  { b with
    title := u.title.getD b.title
    author := u.author.getD b.author
    published_year :=
      match u.published_year with
      | some y => some y
      | none => b.published_year
    genre :=
      match u.genre with
      | some g => some g
      | none => b.genre
    updated_at := now }

/-- `BookService.updateBook` (PostgreSQL branch): build the `SET` list over
the fields `title, author, published_year, genre`; throw
`'No fields to update'` when none is present; otherwise run
`UPDATE ... WHERE id = $n RETURNING *` and return the updated row or null.
Returns the thrown message in `Except.error`, else the returned row and
the resulting table. -/
def updateBook (db : List Book) (id : Int) (u : IBookUpdate) (now : Int) :
    Except String (Option Book × List Book) :=
  if u.title.isNone && u.author.isNone && u.published_year.isNone && u.genre.isNone then
    Except.error "No fields to update"
  else
    Except.ok
      ((db.find? (fun b => b.id = id)).map (applyUpdate u now),
       db.map (fun b => if b.id = id then applyUpdate u now b else b))

/-- `BookService.deleteBook` (PostgreSQL branch):
`DELETE FROM books WHERE id = $1 RETURNING id`; success iff a row came
back. -/
def deleteBook (db : List Book) (id : Int) : Bool × List Book :=
  (db.any (fun b => b.id = id), db.filter (fun b => b.id ≠ id))

/-- The own-property names of the object the dual-dialect `query` wrapper
resolves with in MySQL mode: `config/database.ts` does
`const [rows] = await mysqlPool.execute(text, params); return { rows }`,
so the wrapper object has exactly one property, `rows` (for a write
statement, `rows` is the driver's result header, which is where
`affectedRows` lives). -/
def queryResultProps : List String :=
  ["rows"]

/-- JS property access `(result as any).affectedRows` on the wrapper
object: present only if the wrapper itself carries the property;
otherwise the access yields `undefined` (`none`).  `headerAffected` is
the `affectedRows` count the driver's header would supply. -/
def wrapperAffectedRows (headerAffected : Int) : Option Int :=
  if queryResultProps.contains "affectedRows" then some headerAffected
  else none

/-- JS `x > 0` where `x` may be `undefined`: a comparison against
`undefined` is always `false`. -/
def jsGtZero : Option Int → Bool
  | some n => 0 < n
  | none => false

/-- `BookService.deleteBook`, MySQL branch
(`src/services/BookService.ts` lines 247–251):
`DELETE FROM books WHERE id = ?` removes the matching rows, then
`const success = (result as any).affectedRows > 0` reads `affectedRows`
off the `{ rows }` wrapper itself — not off `result.rows`, where the
driver's header lives — so the flag is `undefined > 0`, i.e. always
`false`, regardless of how many rows were deleted. -/
def deleteBookMySQL (db : List Book) (id : Int) : Bool × List Book :=
  let headerAffected : Int := (db.filter (fun b => b.id = id)).length
  (jsGtZero (wrapperAffectedRows headerAffected),
   db.filter (fun b => b.id ≠ id))

/-- Outcome of a book mutation request. -/
structure BookRouteRun where
  resp : HttpResp
  data : Option Book
  db : List Book
  deriving DecidableEq, Repr

/-- `PUT /api/books/:id` (authenticated): `validateId`
(`isInt \x7bmin: 1\x7d`), then the handler, whose generic `catch` maps any
service throw — including `'No fields to update'` — to a 500
`Internal server error`; a null row maps to 404, a row to 200.
(The optional body-field validators accept the claims' inputs and are not
modelled.) -/
def updateBookRoute (db : List Book) (id : Int) (u : IBookUpdate) (now : Int) :
    BookRouteRun :=
  if id < 1 then ⟨⟨400, false, "Validation failed"⟩, none, db⟩
  else
    match updateBook db id u now with
    | Except.error _ => ⟨⟨500, false, "Internal server error"⟩, none, db⟩
    | Except.ok (none, db2) => ⟨⟨404, false, "Book not found"⟩, none, db2⟩
    | Except.ok (some b, db2) =>
        ⟨⟨200, true, "Book updated successfully"⟩, some b, db2⟩

/-- `DELETE /api/books/:id` (authenticated): `validateId`, then 200 or a
404 `Book not found` depending on the service's boolean (PostgreSQL
configuration). -/
def deleteBookRoute (db : List Book) (id : Int) : BookRouteRun :=
  if id < 1 then ⟨⟨400, false, "Validation failed"⟩, none, db⟩
  else
    let r := deleteBook db id
    if r.1 then ⟨⟨200, true, "Book deleted successfully"⟩, none, r.2⟩
    else ⟨⟨404, false, "Book not found"⟩, none, r.2⟩

/-- `DELETE /api/books/:id` under `DB_TYPE=mysql`: same route, but the
handler calls the MySQL branch of the service. -/
def deleteBookRouteMySQL (db : List Book) (id : Int) : BookRouteRun :=
  if id < 1 then ⟨⟨400, false, "Validation failed"⟩, none, db⟩
  else
    let r := deleteBookMySQL db id
    if r.1 then ⟨⟨200, true, "Book deleted successfully"⟩, none, r.2⟩
    else ⟨⟨404, false, "Book not found"⟩, none, r.2⟩

/-! ### The `GET /api/books` validation pipeline (`routes/bookRoutes`
lines 76–124, `handleValidationErrors` lines 29–40). -/

/-- A field-level entry of the 400 response's `errors` array. -/
structure FieldError where
  field : String
  message : String
  deriving DecidableEq, Repr

/-- The raw query string of a `GET /api/books` request (Express delivers
strings, or arrays for repeated keys). -/
structure RawListQuery where
  page : Option String := none
  limit : Option String := none
  search : Option String := none
  genre : Option StrOrArr := none
  author : Option StrOrArr := none
  year : Option String := none
  deriving DecidableEq, Repr

/-- validator.js `isInt`: an optional sign followed by one or more
digits; returns the parsed value. -/
def strToInt? (s : String) : Option Int :=
  let digits (l : List Char) : Option Nat :=
    if l.isEmpty || !l.all Char.isDigit then none
    else some (l.foldl (fun acc c => acc * 10 + (c.toNat - 48)) 0)
  match s.data with
  | '+' :: rest => (digits rest).map Int.ofNat
  | '-' :: rest => (digits rest).map (fun n => -(Int.ofNat n))
  | l => (digits l).map Int.ofNat

/-- The validator chain of `GET /api/books`, in declaration order:
`page` optional `isInt \x7bmin: 1\x7d`; `limit` optional
`isInt \x7bmin: 1, max: 100\x7d`; `genre`/`author` optional custom
(string, or array of non-blank strings); `year` optional `isInt`. -/
def validateListQuery (q : RawListQuery) : List FieldError :=
  (match q.page with
   | none => []
   | some s =>
       match strToInt? s with
       | some n => if 1 ≤ n then [] else [⟨"page", "Page must be a positive integer"⟩]
       | none => [⟨"page", "Page must be a positive integer"⟩]) ++
  (match q.limit with
   | none => []
   | some s =>
       match strToInt? s with
       | some n =>
           if 1 ≤ n ∧ n ≤ 100 then []
           else [⟨"limit", "Limit must be between 1 and 100"⟩]
       | none => [⟨"limit", "Limit must be between 1 and 100"⟩]) ++
  (match q.genre with
   | none => []
   | some (StrOrArr.str _) => []
   | some (StrOrArr.arr l) =>
       if l.all (fun x => x.trim ≠ "") then []
       else [⟨"genre", "Genre must be a string or array of strings"⟩]) ++
  (match q.author with
   | none => []
   | some (StrOrArr.str _) => []
   | some (StrOrArr.arr l) =>
       if l.all (fun x => x.trim ≠ "") then []
       else [⟨"author", "Author must be a string or array of strings"⟩]) ++
  (match q.year with
   | none => []
   | some s => if (strToInt? s).isSome then [] else [⟨"year", "Year must be a number"⟩])

/-- JS `parseInt(x) || dflt` on an optional validated string: `NaN` and
`0` are falsy. -/
def jsOrInt (v : Option Int) (dflt : Int) : Int :=
  match v with
  | some n => if n = 0 then dflt else n
  | none => dflt

/-- The handler's `parseArrayParam`: a falsy value (absent or empty
string) becomes `undefined`; an array keeps its truthy (non-empty-string)
items; a non-empty string passes through. -/
def parseArrayParam : Option StrOrArr → Option StrOrArr
  | none => none
  | some (StrOrArr.str s) => if s = "" then none else some (StrOrArr.str s)
  | some (StrOrArr.arr l) => some (StrOrArr.arr (l.filter (fun x => x ≠ "")))

/-- One run of `GET /api/books`: HTTP status, `success`, the `errors`
array (empty when absent), whether `BookService.getAllBooks` was reached,
and its result. -/
structure ListRun where
  status : Nat
  success : Bool
  errors : List FieldError
  serviceCalled : Bool
  result : Option IPaginatedResult
  deriving DecidableEq, Repr

/-- `GET /api/books`: `handleValidationErrors` responds 400 with the
validation errors before the handler runs; otherwise the handler computes
`page`, `limit`, `offset = (page-1)*limit` and the filter object, and
calls `BookService.getAllBooks`. -/
def listBooksRoute (db : List Book) (q : RawListQuery) : ListRun :=
  let errs := validateListQuery q
  if !errs.isEmpty then ⟨400, false, errs, false, none⟩
  else
    let pageI := jsOrInt (q.page.bind strToInt?) 1
    let limI := jsOrInt (q.limit.bind strToInt?) 10
    let f : IBookFilters :=
      { search := q.search.map String.trim
        genre := parseArrayParam q.genre
        author := parseArrayParam q.author
        year := q.year.bind strToInt?
        limit := some limI.toNat
        offset := some ((pageI - 1) * limI).toNat }
    ⟨200, true, [], true, some (getAllBooks db f)⟩

/-! ### Sample rows used by counterexamples and witnesses. -/

/-- The spec's running example book. -/
def dune : Book :=
  ⟨1, "Dune", "Herbert", some "Sci-Fi", some 1965, 100, 100⟩

/-- A book whose `genre` column is NULL. -/
def noGenreBook : Book :=
  ⟨2, "Ulysses", "Joyce", none, some 1922, 50, 50⟩

/-- A third sample book. -/
def thirdBook : Book :=
  ⟨3, "Neuromancer", "Gibson", some "Sci-Fi", some 1984, 75, 75⟩

end BookMgmt

namespace BookMgmt

/-- Claim C1: the optimized single-round-trip listing (window-function
count alongside each row) is claimed to produce the same `(rows, total)`
as the naive two-query implementation for every database state and filter,
including pages whose data slice is empty.  The code reads `total_count`
from the first returned row and falls back to `0` when the page slice is
empty, so on an out-of-range page the optimized implementation reports
`total = 0` while the naive count of the same WHERE predicate is `1`:
evaluated here at a one-book table with the default filter and
`offset = 10`.  The rows themselves agree. -/
theorem combinedCount_total_bug :
    (getAllBooks [dune] { offset := some 10 }).total = 0 ∧
    (getAllBooksNaive [dune] { offset := some 10 }).total = 1 ∧
    (getAllBooks [dune] { offset := some 10 }).data =
      (getAllBooksNaive [dune] { offset := some 10 }).data ∧
    (getAllBooks [dune] { offset := some 0 }).total =
      (getAllBooksNaive [dune] { offset := some 0 }).total := by
  decide

/-- Claim C5, counterexample: an update with an empty partial-fields set is
claimed to surface as a client error, not an internal server error.  The
service throws `'No fields to update'`, the route's generic `catch` turns
the throw into a 500 `Internal server error` response (the stored row is
indeed left unchanged). -/
theorem updateRoute_emptyFields_500 :
    (updateBookRoute [dune] 1 {} 5).resp = ⟨500, false, "Internal server error"⟩ ∧
    (updateBookRoute [dune] 1 {} 5).db = [dune] := by
  decide

/-- Claim C5, amended: for every book id (within route validation) an
update with an empty partial-fields set fails with the
`'No fields to update'` outcome — never a no-op success — and leaves the
table unchanged, but the route surfaces it as HTTP 500
`Internal server error`, not as a 4xx client error. -/
theorem updateBook_emptyFields_behavior (db : List Book) (id : Int) (now : Int)
    (h : 1 ≤ id) :
    updateBook db id {} now = Except.error "No fields to update" ∧
    updateBookRoute db id {} now =
      ⟨⟨500, false, "Internal server error"⟩, none, db⟩ := by
  have h2 : ¬ id < 1 := by omega
  refine ⟨rfl, ?_⟩
  simp [updateBookRoute, h2, updateBook]

theorem updateBook_emptyFields_behavior_witness :
    updateBook [dune] 1 {} 5 = Except.error "No fields to update" ∧
    updateBookRoute [dune] 1 {} 5 =
      ⟨⟨500, false, "Internal server error"⟩, none, [dune]⟩ :=
  updateBook_emptyFields_behavior [dune] 1 5 (by decide)

/-- The service's emptiness test is exactly "the update object is the
empty partial-fields set". -/
lemma emptyUpdate_iff (u : IBookUpdate) :
    (u.title.isNone && u.author.isNone && u.published_year.isNone &&
      u.genre.isNone) = true ↔ u = {} := by
  rcases u with ⟨t, a, y, g⟩
  cases t <;> cases a <;> cases y <;> cases g <;> simp [IBookUpdate.mk.injEq]

/-- An update/delete whose id hits no row leaves the table unchanged. -/
lemma touch_absent_id (db : List Book) (bid : Int) (u : IBookUpdate)
    (now : Int) (habs : ∀ b ∈ db, b.id ≠ bid) :
    db.map (fun b => if b.id = bid then applyUpdate u now b else b) = db ∧
    db.filter (fun b => b.id ≠ bid) = db := by
  constructor
  · have h := List.map_congr_left
      (f := fun b : Book => if b.id = bid then applyUpdate u now b else b)
      (g := fun b => b) (l := db) ?_
    · simpa using h
    · intro b hb
      simp [habs b hb]
  · exact List.filter_eq_self.mpr (fun b hb => by simp [habs b hb])

/-- Claim C6, counterexample: the claim is dialect-unqualified, but under
the MySQL configuration the delete service reads `affectedRows` off the
`{ rows }` wrapper object (where it does not exist), so the success flag
is `undefined > 0 = false` on every run: deleting the one existing book
removes its row from the table, yet the route answers 404
`Book not found` — the first delete of an existing id does not succeed,
and delete's not-found outcome is not distinguishable from success
there. -/
theorem deleteRoute_mysql_counterexample :
    dune.id = 1 ∧
    deleteBookMySQL [dune] 1 = (false, []) ∧
    deleteBookRouteMySQL [dune] 1 =
      ⟨⟨404, false, "Book not found"⟩, none, []⟩ := by
  decide

/-- Claim C6, amended: in the PostgreSQL configuration, for an id hitting
no row, update (with non-empty fields) and delete return a not-found
outcome distinguishable from success (`null` / `false`) without throwing;
the routes map it to a 404 `Book not found` (never 200) and the table is
unchanged; and deleting an existing id succeeds once and returns
not-found the second time.  (Under `DB_TYPE=mysql` the delete flag is
always `false`, so the last clause fails there.) -/
theorem notFound_mapping (db : List Book) (bid : Int) (u : IBookUpdate)
    (now : Int) (hid : 1 ≤ bid) (hu : u ≠ {})
    (habs : ∀ b ∈ db, b.id ≠ bid) :
    updateBook db bid u now = Except.ok (none, db) ∧
    (updateBookRoute db bid u now).resp = ⟨404, false, "Book not found"⟩ ∧
    deleteBook db bid = (false, db) ∧
    (deleteBookRoute db bid).resp = ⟨404, false, "Book not found"⟩ ∧
    (deleteBookRoute db bid).db = db ∧
    (∀ id2 : Int, 1 ≤ id2 → (∃ b ∈ db, b.id = id2) →
      (deleteBookRoute db id2).resp.status = 200 ∧
      (deleteBookRoute (deleteBookRoute db id2).db id2).resp =
        ⟨404, false, "Book not found"⟩) := by
  have hid2 : ¬ bid < 1 := by omega
  have hcond :
      (u.title.isNone && u.author.isNone && u.published_year.isNone &&
        u.genre.isNone) ≠ true := fun hc => hu ((emptyUpdate_iff u).mp hc)
  have hfind : db.find? (fun b => b.id = bid) = none :=
    List.find?_eq_none.mpr (fun b hb => by simp [habs b hb])
  have htouch := touch_absent_id db bid u now habs
  have hany : db.any (fun b => b.id = bid) = false := by
    simp only [List.any_eq_false]
    intro b hb
    simp [habs b hb]
  have hupd : updateBook db bid u now = Except.ok (none, db) := by
    unfold updateBook
    rw [if_neg hcond, hfind]
    simp [htouch.1]
  refine ⟨hupd, ?_, ?_, ?_, ?_, ?_⟩
  · simp only [updateBookRoute, if_neg hid2, hupd]
  · simp only [deleteBook, hany, htouch.2]
  · simp [deleteBookRoute, if_neg hid2, deleteBook, hany, htouch.2]
  · simp only [deleteBookRoute, if_neg hid2, deleteBook, hany]
    simpa using habs
  · intro id2 h1 h2
    have h2lt : ¬ id2 < 1 := by omega
    have hany2 : db.any (fun b => b.id = id2) = true := by
      rcases h2 with ⟨b, hb, hbid⟩
      exact List.any_eq_true.mpr ⟨b, hb, by simp [hbid]⟩
    have hgone : (db.filter (fun b => b.id ≠ id2)).any (fun b => b.id = id2)
        = false := by
      simp only [List.any_eq_false]
      intro b hb
      have := (List.mem_filter.mp hb).2
      simpa using this
    constructor
    · simp [deleteBookRoute, h2lt, deleteBook, hany2]
    · simp [deleteBookRoute, h2lt, deleteBook, hany2, hgone]

theorem notFound_mapping_witness :
    updateBook [dune] 99 { title := some "X" } 5 = Except.ok (none, [dune]) ∧
    (updateBookRoute [dune] 99 { title := some "X" } 5).resp =
      ⟨404, false, "Book not found"⟩ ∧
    deleteBook [dune] 99 = (false, [dune]) ∧
    (deleteBookRoute [dune] 99).resp = ⟨404, false, "Book not found"⟩ ∧
    (deleteBookRoute [dune] 99).db = [dune] ∧
    (∀ id2 : Int, 1 ≤ id2 → (∃ b ∈ [dune], b.id = id2) →
      (deleteBookRoute [dune] id2).resp.status = 200 ∧
      (deleteBookRoute (deleteBookRoute [dune] id2).db id2).resp =
        ⟨404, false, "Book not found"⟩) :=
  notFound_mapping [dune] 99 { title := some "X" } 5 (by decide)
    (by simp [IBookUpdate.mk.injEq]) (by decide)

/-- A sample user row (password stored as its bcrypt hash). -/
def alice : User :=
  ⟨1, "alice", "alice@example.com", hashPassword "correct horse", "admin", 10, 10⟩

/-- Claim C7: if the email is already taken, registration fails with the
duplicate-email outcome (not the duplicate-username one); if the email is
free but the username is taken, it fails with the duplicate-username
outcome; in both failure cases `bcrypt.hash` is never invoked and no row
is inserted — the duplicate checks run before the hash. -/
theorem register_duplicates (db : List User)
    (username email password role : String) (newId now : Int) :
    ((∃ u ∈ db, u.email = email) →
      registerUser db username email password role newId now =
        ⟨⟨false, "User with this email already exists", none, none⟩, false, db⟩) ∧
    ((∀ u ∈ db, u.email ≠ email) → (∃ u ∈ db, u.username = username) →
      registerUser db username email password role newId now =
        ⟨⟨false, "Username is already taken", none, none⟩, false, db⟩) := by
  constructor
  · intro h
    have hsome : (getUserByEmail db email).isSome := by
      rw [getUserByEmail, List.find?_isSome]
      rcases h with ⟨u, hu, he⟩
      exact ⟨u, hu, by simp [he]⟩
    rcases Option.isSome_iff_exists.mp hsome with ⟨u, hu⟩
    simp [registerUser, hu]
  · intro hfree htaken
    have hnone : getUserByEmail db email = none := by
      rw [getUserByEmail, List.find?_eq_none]
      intro u hu
      simp [hfree u hu]
    have hsome : (getUserByUsername db username).isSome := by
      rw [getUserByUsername, List.find?_isSome]
      rcases htaken with ⟨u, hu, he⟩
      exact ⟨u, hu, by simp [he]⟩
    rcases Option.isSome_iff_exists.mp hsome with ⟨u, hu⟩
    simp [registerUser, hnone, hu]

theorem register_duplicates_witness :
    registerUser [alice] "bob" "alice@example.com" "pw" "user" 2 20 =
      ⟨⟨false, "User with this email already exists", none, none⟩, false,
       [alice]⟩ ∧
    registerUser [alice] "alice" "bob@example.com" "pw" "user" 2 20 =
      ⟨⟨false, "Username is already taken", none, none⟩, false, [alice]⟩ :=
  ⟨(register_duplicates [alice] "bob" "alice@example.com" "pw" "user" 2 20).1
      ⟨alice, by decide, by decide⟩,
   (register_duplicates [alice] "alice" "bob@example.com" "pw" "user" 2 20).2
      (by decide) ⟨alice, by decide, by decide⟩⟩

/-- Claim C8: a login attempt with an unknown email and one with a known
email but wrong password produce identical observable outcomes — same
success flag, same message, same HTTP status — and no token. -/
theorem login_uniform_failure (db : List User) (e1 p1 e2 p2 : String)
    (h1 : ∀ u ∈ db, u.email ≠ e1)
    (h2 : ∃ u ∈ db, u.email = e2)
    (h3 : ∀ u ∈ db, u.email = e2 → u.password_hash ≠ hashPassword p2) :
    loginRoute db e1 p1 = loginRoute db e2 p2 ∧
    loginRoute db e2 p2 =
      ⟨401, ⟨false, "Invalid email or password", none, none⟩⟩ := by
  have hnone : getUserByEmail db e1 = none := by
    rw [getUserByEmail, List.find?_eq_none]
    intro u hu
    simp [h1 u hu]
  have hsome : (getUserByEmail db e2).isSome := by
    rw [getUserByEmail, List.find?_isSome]
    rcases h2 with ⟨u, hu, he⟩
    exact ⟨u, hu, by simp [he]⟩
  rcases Option.isSome_iff_exists.mp hsome with ⟨u, hu⟩
  have hmem : u ∈ db := List.mem_of_find?_eq_some hu
  have hmail : u.email = e2 := by
    have := List.find?_some hu
    simpa using this
  have hpw : ¬ hashPassword p2 = u.password_hash :=
    fun hc => h3 u hmem hmail hc.symm
  constructor
  · simp [loginRoute, loginUser, hnone, hu, hpw]
  · simp [loginRoute, loginUser, hu, hpw]

theorem login_uniform_failure_witness :
    loginRoute [alice] "nobody@example.com" "x" =
      loginRoute [alice] "alice@example.com" "wrong" ∧
    loginRoute [alice] "alice@example.com" "wrong" =
      ⟨401, ⟨false, "Invalid email or password", none, none⟩⟩ :=
  login_uniform_failure [alice] "nobody@example.com" "x"
    "alice@example.com" "wrong" (by decide)
    ⟨alice, by decide, by decide⟩ (by decide)

/-- Claim C9: role-change and user-deletion requests without a valid admin
token are rejected (401 unauthenticated, 403 authenticated-but-not-admin)
with no change to the `users` table, and an admin whose own id equals the
target id is refused with HTTP 400 and no state change. -/
theorem admin_self_guard (db : List User) (targetId : Int) (role : String)
    (now : Int) :
    (deleteUserRoute db TokenState.missing targetId =
        ⟨⟨401, false, "Access token is required"⟩, db⟩ ∧
      updateUserRoleRoute db TokenState.missing targetId role now =
        ⟨⟨401, false, "Access token is required"⟩, db⟩) ∧
    (deleteUserRoute db TokenState.invalid targetId =
        ⟨⟨403, false, "Invalid or expired token"⟩, db⟩ ∧
      updateUserRoleRoute db TokenState.invalid targetId role now =
        ⟨⟨403, false, "Invalid or expired token"⟩, db⟩) ∧
    (∀ p : IJWTPayload, p.role ≠ "admin" →
      deleteUserRoute db (TokenState.valid p) targetId =
        ⟨⟨403, false, "Admin access required"⟩, db⟩ ∧
      updateUserRoleRoute db (TokenState.valid p) targetId role now =
        ⟨⟨403, false, "Admin access required"⟩, db⟩) ∧
    (∀ p : IJWTPayload, p.role = "admin" → p.userId = targetId →
      1 ≤ targetId → (role = "admin" ∨ role = "user") →
      deleteUserRoute db (TokenState.valid p) targetId =
        ⟨⟨400, false, "You cannot delete your own account"⟩, db⟩ ∧
      updateUserRoleRoute db (TokenState.valid p) targetId role now =
        ⟨⟨400, false, "You cannot change your own role"⟩, db⟩) := by
  refine ⟨⟨rfl, rfl⟩, ⟨rfl, rfl⟩, ?_, ?_⟩
  · intro p hp
    constructor <;>
      simp [deleteUserRoute, updateUserRoleRoute, authenticateToken,
        requireAdmin, hp]
  · intro p hadmin hself hval hrole
    have hv : ¬ targetId < 1 := by omega
    have hrole2 : (role = "admin" || role = "user") = true := by
      rcases hrole with h | h <;> simp [h]
    constructor <;>
      simp [deleteUserRoute, updateUserRoleRoute, authenticateToken,
        requireAdmin, hadmin, hself, hv, hrole2]

theorem admin_self_guard_witness :
    deleteUserRoute [alice] (TokenState.valid ⟨1, "alice",
        "alice@example.com", "admin"⟩) 1 =
      ⟨⟨400, false, "You cannot delete your own account"⟩, [alice]⟩ ∧
    updateUserRoleRoute [alice] (TokenState.valid ⟨1, "alice",
        "alice@example.com", "admin"⟩) 1 "user" 30 =
      ⟨⟨400, false, "You cannot change your own role"⟩, [alice]⟩ :=
  (admin_self_guard [alice] 1 "user" 30).2.2.2
    ⟨1, "alice", "alice@example.com", "admin"⟩
    (by decide) (by decide) (by decide) (Or.inr (by decide))

/-- JS property access on an object modelled as a keyed record. -/
def objLookup (k : String) : UserObj → Option SqlParam
  | [] => none
  | kv :: t => if kv.1 = k then some kv.2 else objLookup k t

/-- Looking up the removed key after filtering it out. -/
lemma objLookup_filterKey_self (key : String) (l : List (String × SqlParam)) :
    objLookup key (l.filter (fun kv => kv.1 ≠ key)) = none := by
  induction l with
  | nil => rfl
  | cons kv t ih =>
    by_cases h : kv.1 = key
    · simpa [List.filter_cons, h] using ih
    · simpa [List.filter_cons, h, objLookup] using ih

/-- Looking up any other key is unchanged by filtering one key out. -/
lemma objLookup_filterKey_other (key k : String) (hk : k ≠ key)
    (l : List (String × SqlParam)) :
    objLookup k (l.filter (fun kv => kv.1 ≠ key)) = objLookup k l := by
  induction l with
  | nil => rfl
  | cons kv t ih =>
    by_cases h : kv.1 = key
    · have hne : kv.1 ≠ k := fun hc => hk (hc ▸ h)
      simpa [List.filter_cons, h, objLookup, hne, hk, Ne.symm hk] using ih
    · by_cases h2 : kv.1 = k
      · simp [List.filter_cons, h, objLookup, h2, hk, Ne.symm hk]
      · simpa [List.filter_cons, h, objLookup, h2, hk, Ne.symm hk] using ih

/-- Claim C10: `formatUserResponse` removes exactly the `password_hash`
key and preserves every other key, and every user-returning operation
(login response, `GET /api/auth/me`, `GET /api/auth/users`) passes its
rows through it, so no returned user object carries `password_hash`. -/
theorem password_hash_never_returned :
    (∀ user : UserObj,
      objLookup "password_hash" (formatUserResponse user) = none ∧
      ∀ k : String, k ≠ "password_hash" →
        objLookup k (formatUserResponse user) = objLookup k user) ∧
    (∀ (db : List User) (tok : TokenState) (obj : UserObj),
      (meRoute db tok).2 = some obj →
        objLookup "password_hash" obj = none) ∧
    (∀ (db : List User) (obj : UserObj), obj ∈ getAllUsers db →
      objLookup "password_hash" obj = none) ∧
    (∀ (db : List User) (e p : String) (obj : UserObj),
      (loginUser db e p).user = some obj →
        objLookup "password_hash" obj = none) := by
  have hfmt : ∀ user : UserObj,
      objLookup "password_hash" (formatUserResponse user) = none :=
    fun user => objLookup_filterKey_self "password_hash" user
  refine ⟨fun user => ⟨hfmt user,
      fun k hk => objLookup_filterKey_other "password_hash" k hk user⟩,
    ?_, ?_, ?_⟩
  · intro db tok obj hobj
    rcases tok with _ | _ | p
    · simp [meRoute, authenticateToken] at hobj
    · simp [meRoute, authenticateToken] at hobj
    · simp only [meRoute, authenticateToken] at hobj
      rcases hgu : getUserById db p.userId with _ | u
      · rw [hgu] at hobj
        simp at hobj
      · rw [hgu] at hobj
        simp at hobj
        subst hobj
        exact hfmt _
  · intro db obj hobj
    rcases List.mem_map.mp hobj with ⟨u, _, hu⟩
    rw [← hu]
    exact hfmt _
  · intro db e p obj hobj
    rcases hgu : getUserByEmail db e with _ | u
    · unfold loginUser at hobj
      rw [hgu] at hobj
      simp at hobj
    · have hred : loginUser db e p =
          if hashPassword p = u.password_hash then
            ⟨true, "Login successful", some (formatUserResponse u.toObj),
             some (generateToken u.id u.username u.email u.role)⟩
          else ⟨false, "Invalid email or password", none, none⟩ := by
        unfold loginUser
        rw [hgu]
      rw [hred] at hobj
      by_cases hpw : hashPassword p = u.password_hash
      · rw [if_pos hpw] at hobj
        simp at hobj
        subst hobj
        exact hfmt _
      · rw [if_neg hpw] at hobj
        simp at hobj

theorem password_hash_never_returned_witness :
    objLookup "password_hash" (formatUserResponse alice.toObj) = none ∧
    objLookup "username" (formatUserResponse alice.toObj) =
      objLookup "username" alice.toObj :=
  ⟨(password_hash_never_returned.1 alice.toObj).1,
   (password_hash_never_returned.1 alice.toObj).2 "username" (by decide)⟩

/-- Claim C4: a request whose query string carries a non-integer year, a
limit outside [1,100] (or non-integer), or a page below 1 (or
non-integer) is answered 400 with `success: false` and a non-empty
field-level `errors` array, before any service/repository call; the value
is never clamped into range. -/
theorem listRoute_validation_rejects (db : List Book) (q : RawListQuery)
    (h : (∃ s, q.year = some s ∧ strToInt? s = none) ∨
      (∃ s n, q.limit = some s ∧ strToInt? s = some n ∧ (n < 1 ∨ 100 < n)) ∨
      (∃ s, q.limit = some s ∧ strToInt? s = none) ∨
      (∃ s n, q.page = some s ∧ strToInt? s = some n ∧ n < 1) ∨
      (∃ s, q.page = some s ∧ strToInt? s = none)) :
    listBooksRoute db q =
      ⟨400, false, validateListQuery q, false, none⟩ ∧
    validateListQuery q ≠ [] := by
  have herrs : validateListQuery q ≠ [] := by
    intro hc
    rcases h with ⟨s, hq, hp⟩ | ⟨s, n, hq, hp, hb⟩ | ⟨s, hq, hp⟩ |
      ⟨s, n, hq, hp, hb⟩ | ⟨s, hq, hp⟩
    · simp only [validateListQuery, hq, hp] at hc
      simp [List.append_eq_nil] at hc
    · have hb2 : ¬ (1 ≤ n ∧ n ≤ 100) := by omega
      simp only [validateListQuery, hq, hp, if_neg hb2] at hc
      simp [List.append_eq_nil] at hc
    · simp only [validateListQuery, hq, hp] at hc
      simp [List.append_eq_nil] at hc
    · have hb2 : ¬ 1 ≤ n := by omega
      simp only [validateListQuery, hq, hp, if_neg hb2] at hc
      simp [List.append_eq_nil] at hc
    · simp only [validateListQuery, hq, hp] at hc
      simp [List.append_eq_nil] at hc
  have hne : (validateListQuery q).isEmpty = false := by
    rcases hx : validateListQuery q with _ | _
    · exact absurd hx herrs
    · rfl
  refine ⟨?_, herrs⟩
  simp [listBooksRoute, hne]

theorem listRoute_validation_rejects_witness :
    listBooksRoute [dune] { limit := some "101" } =
      ⟨400, false, validateListQuery { limit := some "101" }, false, none⟩ ∧
    validateListQuery { limit := some "101" } ≠ [] :=
  listRoute_validation_rejects [dune] { limit := some "101" }
    (Or.inr (Or.inl ⟨"101", 101, rfl, by decide, Or.inr (by decide)⟩))

/-! ### `%text%` `ILIKE` versus substring containment. -/

/-- The listing result for page `i+1` (0-based `i`): the route computes
`offset = (page - 1) * limit`. -/
def pageResult (db : List Book) (f : IBookFilters) (lim i : Nat) :
    IPaginatedResult :=
  getAllBooks db { f with limit := some lim, offset := some (i * lim) }

/-- `totalPages` computed from the true filtered count:
`Math.ceil(total/limit)`. -/
def numPages (db : List Book) (f : IBookFilters) (lim : Nat) : Nat :=
  ((filteredBooks db f).length + lim - 1) / lim

/-- The filter fields do not read `limit`/`offset`, so the page filter
object filters identically. -/
lemma filteredBooks_page (db : List Book) (f : IBookFilters) (lim o : Nat) :
    filteredBooks db { f with limit := some lim, offset := some o } =
      filteredBooks db f := rfl

/-- Concatenating `n` consecutive `LIMIT lim` slices starting at `o`
recovers the tail from `o`, once `n` slices cover the list. -/
lemma join_page_slices {α : Type} (lim : Nat) :
    ∀ (n o : Nat) (L : List α), L.length ≤ o + n * lim →
      ((List.range n).map (fun i => (L.drop (o + i * lim)).take lim)).flatten =
        L.drop o := by
  intro n
  induction n with
  | zero =>
    intro o L h0
    simp only [Nat.zero_mul, Nat.add_zero] at h0
    simp [List.drop_eq_nil_iff.mpr h0]
  | succ k ih =>
    intro o L hlen
    rw [List.range_succ_eq_map]
    simp only [List.map_cons, List.flatten_cons, List.map_map]
    have hfun : ((fun i => (L.drop (o + i * lim)).take lim) ∘ Nat.succ) =
        (fun i => (L.drop ((o + lim) + i * lim)).take lim) := by
      funext i
      have harg : o + Nat.succ i * lim = o + lim + i * lim := by
        rw [Nat.succ_mul, Nat.add_comm (i * lim) lim, ← Nat.add_assoc]
      simp only [Function.comp, harg]
    have hlen2 : L.length ≤ (o + lim) + k * lim := by
      rw [Nat.succ_mul, Nat.add_comm (k * lim) lim, ← Nat.add_assoc] at hlen
      exact hlen
    rw [hfun, ih (o + lim) L hlen2]
    have h0 : o + 0 * lim = o := by simp
    rw [h0, ← List.drop_drop]
    exact List.take_append_drop lim (L.drop o)

/-- `len ≤ ceil(len/lim) * lim`. -/
lemma ceil_mul_bound (len lim : Nat) (h : 1 ≤ lim) :
    len ≤ ((len + lim - 1) / lim) * lim := by
  have hd := Nat.div_add_mod (len + lim - 1) lim
  have hm : (len + lim - 1) % lim < lim := Nat.mod_lt _ (by omega)
  have h2 : lim * ((len + lim - 1) / lim) = ((len + lim - 1) / lim) * lim :=
    Nat.mul_comm _ _
  rw [h2] at hd
  generalize hT : ((len + lim - 1) / lim) * lim = T at *
  omega

/-- A 0-based page index below `ceil(len/lim)` starts strictly inside the
list. -/
lemma page_start_lt (len lim i : Nat) (h : 1 ≤ lim)
    (hi : i < (len + lim - 1) / lim) : i * lim < len := by
  have hd := Nat.div_add_mod (len + lim - 1) lim
  have hm : (len + lim - 1) % lim < lim := Nat.mod_lt _ (by omega)
  have hmul : (i + 1) * lim ≤ ((len + lim - 1) / lim) * lim :=
    Nat.mul_le_mul_right lim (by omega)
  rw [Nat.succ_mul] at hmul
  have h2 : lim * ((len + lim - 1) / lim) = ((len + lim - 1) / lim) * lim :=
    Nat.mul_comm _ _
  rw [h2] at hd
  generalize hA : i * lim = A at *
  generalize hB : ((len + lim - 1) / lim) * lim = B at *
  omega

/-- Claim C3: for a fixed database and filter and `1 ≤ limit ≤ 100`,
concatenating the data slices of pages `1..totalPages` reproduces the
full filtered result set exactly (no duplicates, no gaps), the result set
is ordered by creation time descending, and each in-range page reports
`total` = the filtered count, `page = floor(offset/limit)+1`,
`totalPages = ceil(total/limit)`, `hasNext = page < totalPages`,
`hasPrev = page > 1`. -/
theorem pagination_partition (db : List Book) (f : IBookFilters) (lim : Nat)
    (h1 : 1 ≤ lim) (h2 : lim ≤ 100) :
    ((List.range (numPages db f lim)).map
        (fun i => (pageResult db f lim i).data)).flatten = filteredBooks db f ∧
    List.Sorted createdDesc (filteredBooks db f) ∧
    (∀ i, i < numPages db f lim →
      pageResult db f lim i =
        { data := ((filteredBooks db f).drop (i * lim)).take lim
          total := (filteredBooks db f).length
          page := i + 1
          totalPages := numPages db f lim
          hasNext := decide (i + 1 < numPages db f lim)
          hasPrev := decide (i + 1 > 1) }) := by
  have hpage : ∀ i, i < numPages db f lim →
      pageResult db f lim i =
        { data := ((filteredBooks db f).drop (i * lim)).take lim
          total := (filteredBooks db f).length
          page := i + 1
          totalPages := numPages db f lim
          hasNext := decide (i + 1 < numPages db f lim)
          hasPrev := decide (i + 1 > 1) } := by
    intro i hi
    have hlt : i * lim < (filteredBooks db f).length :=
      page_start_lt _ lim i h1 hi
    have hdrop : (filteredBooks db f).drop (i * lim) ≠ [] := by
      rw [Ne, List.drop_eq_nil_iff]
      omega
    have hslice :
        (((filteredBooks db f).drop (i * lim)).take lim).isEmpty = false := by
      rw [List.isEmpty_eq_false, Ne, List.take_eq_nil_iff]
      push_neg
      exact ⟨by omega, hdrop⟩
    have hdiv : i * lim / lim + 1 = i + 1 := by
      rw [Nat.mul_div_cancel i (by omega : 0 < lim)]
    unfold pageResult getAllBooks
    rw [filteredBooks_page]
    simp only [Option.getD_some, hslice, Bool.false_eq_true, if_false, hdiv]
    rfl
  refine ⟨?_, ?_, hpage⟩
  · have hcover : (filteredBooks db f).length ≤
        0 + (numPages db f lim) * lim := by
      simpa using ceil_mul_bound (filteredBooks db f).length lim h1
    have hjoin := join_page_slices lim (numPages db f lim) 0
      (filteredBooks db f) hcover
    have hmap : (List.range (numPages db f lim)).map
        (fun i => (pageResult db f lim i).data) =
        (List.range (numPages db f lim)).map
          (fun i => ((filteredBooks db f).drop (0 + i * lim)).take lim) := by
      apply List.map_congr_left
      intro i hi
      rw [hpage i (List.mem_range.mp hi)]
      simp
    rw [hmap, hjoin]
    simp
  · exact List.Pairwise.filter _
      (List.sorted_insertionSort createdDesc db)

theorem pagination_partition_witness :
    ((List.range (numPages [dune, noGenreBook, thirdBook] {} 2)).map
        (fun i => (pageResult [dune, noGenreBook, thirdBook] {} 2 i).data)).flatten =
      filteredBooks [dune, noGenreBook, thirdBook] {} ∧
    List.Sorted createdDesc (filteredBooks [dune, noGenreBook, thirdBook] {}) ∧
    (∀ i, i < numPages [dune, noGenreBook, thirdBook] {} 2 →
      pageResult [dune, noGenreBook, thirdBook] {} 2 i =
        { data := ((filteredBooks [dune, noGenreBook, thirdBook] {}).drop (i * 2)).take 2
          total := (filteredBooks [dune, noGenreBook, thirdBook] {}).length
          page := i + 1
          totalPages := numPages [dune, noGenreBook, thirdBook] {} 2
          hasNext := decide (i + 1 < numPages [dune, noGenreBook, thirdBook] {} 2)
          hasPrev := decide (i + 1 > 1) }) :=
  pagination_partition [dune, noGenreBook, thirdBook] {} 2 (by decide) (by decide)

end BookMgmt
